import Mathlib

/-!
Verification development for the PIN attempt-lockout policy and the root
authentication gate of the bifold wallet screen layer
(packages/core/src/screens/PINEnter.tsx and the RootStack component).

The TypeScript source is embedded shallowly: each React callback that
mutates application state is rendered as a pure Lean function from the
pre-state (store snapshot plus local UI state) to the post-state, with
dispatched store patches applied in order. JavaScript truthiness tests on
numbers and optionals are modelled explicitly where the source relies on
them.
-/

namespace Bifold

/-- LoginAttemptState: the persisted attempt record
(store.loginAttempt in the source). -/
structure LoginAttemptState where
  loginAttempts : Nat
  lockoutDate : Option Nat
  servedPenalty : Option Bool
  deriving Repr, DecidableEq

/-- The slice of the application store the PIN entry screen reads and
dispatches to: the login attempt record and the lockout display
notification flag (store.lockout.displayNotification). -/
structure StoreState where
  loginAttempt : LoginAttemptState
  lockoutDisplayNotification : Bool
  deriving Repr, DecidableEq

/-- thresholdRules of the attempt lockout configuration. -/
structure ThresholdRules where
  threshold : Nat
  increment : Nat
  thresholdPenaltyDuration : Nat
  deriving Repr, DecidableEq

/-- The attempt lockout configuration: baseRules is the JS object mapping
exact attempt counts to penalty durations (modelled as an association
list), together with the thresholdRules. -/
structure LockoutConfig where
  baseRules : List (Nat × Nat)
  thresholdRules : ThresholdRules
  deriving Repr, DecidableEq

/-- getLockoutPenalty (PINEnter.tsx lines 208-218):

  let penalty = baseRules[attempts]
  if (!penalty and attempts >= thresholdRules.threshold
      and !(attempts % thresholdRules.increment))
    penalty = thresholdRules.thresholdPenaltyDuration
  return penalty

JS truthiness is modelled exactly: !penalty holds when the lookup is
undefined or 0, and !(attempts % increment) holds when the remainder is 0
or NaN (increment = 0, since NaN is falsy). -/
def getLockoutPenalty (cfg : LockoutConfig) (attempts : Nat) : Option Nat :=
  let penalty := cfg.baseRules.lookup attempts
  if penalty.getD 0 = 0 ∧ cfg.thresholdRules.threshold ≤ attempts ∧
      (cfg.thresholdRules.increment = 0 ∨ attempts % cfg.thresholdRules.increment = 0) then
    some cfg.thresholdRules.thresholdPenaltyDuration
  else
    penalty

/-- computeLockoutPenalty as the specification words it: return the
baseRules entry whenever one is present for the exact attempt count;
otherwise the threshold penalty when the count has reached the threshold
and is an exact multiple of the increment; otherwise absent. Stated for
comparison with getLockoutPenalty, which is read off the source. -/
def computeLockoutPenaltySpec (cfg : LockoutConfig) (attempts : Nat) : Option Nat :=
  match cfg.baseRules.lookup attempts with
  | some d => some d
  | none =>
    if cfg.thresholdRules.threshold ≤ attempts ∧
        attempts % cfg.thresholdRules.increment = 0 then
      some cfg.thresholdRules.thresholdPenaltyDuration
    else
      none

/-- The attemptsLeft computation of unlockWalletWithPIN (lines 297-298):
(increment - (newAttempt % increment)) % increment, on non-negative
integers. -/
def attemptsLeftOf (increment newAttempt : Nat) : Nat :=
  (increment - newAttempt % increment) % increment

/-- Modelled from the spec: the application store reducer for the
ATTEMPT_UPDATED action lives outside these sources (contexts/reducers/store
is not part of the embedded files); the spec describes dispatch of
state-patch actions against the store, recordSuccessfulAttempt leaving
lockoutDate and servedPenalty untouched while writing loginAttempts. A
payload therefore carries, per field, either no entry (field left as is)
or an explicit new value (possibly the explicit JS undefined, i.e.
none). -/
structure AttemptPayload where
  loginAttempts : Option Nat
  lockoutDate : Option (Option Nat)
  servedPenalty : Option (Option Bool)
  deriving Repr, DecidableEq

/-- Modelled from the spec: applying an ATTEMPT_UPDATED payload to the
stored LoginAttemptState updates exactly the fields the payload carries. -/
def applyAttemptUpdate (la : LoginAttemptState) (p : AttemptPayload) : LoginAttemptState :=
  { loginAttempts := p.loginAttempts.getD la.loginAttempts
    lockoutDate := p.lockoutDate.getD la.lockoutDate
    servedPenalty := p.servedPenalty.getD la.servedPenalty }

/-- The user-facing messages the PIN entry screen can set, by their
translation keys in the source. -/
inductive PINMessage where
  | incorrectPINTries (tries : Nat)
  | lastTryBeforeTimeout
  deriving Repr, DecidableEq

/-- The local component state of the PIN entry screen that the embedded
callbacks touch: the continue button gate, the alert modal visibility and
message, the inline message field, and the authenticated callback flag. -/
structure UIState where
  continueEnabled : Bool
  alertModalVisible : Bool
  alertModalMessage : Option PINMessage
  inlineMessageField : Option PINMessage
  authenticated : Bool
  deriving Repr, DecidableEq

/-- The observable outcome of one verification attempt: the store after
all dispatches, the local UI state, and the numeric codes of ERROR_ADDED
events emitted. -/
structure UnlockOutcome where
  store : StoreState
  ui : UIState
  errorEvents : List Nat
  deriving Repr, DecidableEq

/-- unMarkServedPenalty (lines 178-189): dispatches ATTEMPT_UPDATED with
the current loginAttempts and explicit undefined lockoutDate and
servedPenalty. -/
def unMarkServedPenalty (s : StoreState) : StoreState :=
  { s with loginAttempt :=
      (applyAttemptUpdate s.loginAttempt
        ⟨some s.loginAttempt.loginAttempts, some none, some none⟩) }

/-- attemptLockout (lines 191-206): dispatches ATTEMPT_UPDATED with the
snapshot attempt count plus one, lockoutDate = Date.now() + penalty and
servedPenalty = false. -/
def attemptLockout (now penalty snapshotAttempts : Nat) (s : StoreState) : StoreState :=
  { s with loginAttempt :=
      (applyAttemptUpdate s.loginAttempt
        ⟨some (snapshotAttempts + 1), some (some (now + penalty)), some (some false)⟩) }

/-- The success branch of unlockWalletWithPIN (lines 343-353): dispatch
ATTEMPT_UPDATED with loginAttempts 0, then LOCKOUT_UPDATED with
displayNotification false. This is the spec operation
recordSuccessfulAttempt. -/
def recordSuccessfulAttempt (s : StoreState) : StoreState :=
  let s1 : StoreState :=
    { s with loginAttempt := applyAttemptUpdate s.loginAttempt ⟨some 0, none, none⟩ }
  { s1 with lockoutDisplayNotification := false }

/-- unlockWalletWithPIN (lines 282-366), embedded over a store snapshot
s, local UI state ui, and the result of the awaited checkWalletPIN call
(Except models the possible throw, caught at lines 357-365 with error
code 1041). All dispatches are computed from the snapshot taken at entry,
as the source closure does, and applied in order. Navigation
(gotoPostAuthScreens) is outside the embedded state. -/
def unlockWalletWithPIN (cfg : LockoutConfig) (inlineEnabled : Bool) (now : Nat)
    (checkResult : Except String Bool) (s : StoreState) (ui : UIState) : UnlockOutcome :=
  let ui := { ui with continueEnabled := false }
  match checkResult with
  | Except.error _ => ⟨s, ui, [1041]⟩
  | Except.ok result =>
    let la := s.loginAttempt
    let s := if la.servedPenalty.getD false then unMarkServedPenalty s else s
    if result then
      ⟨recordSuccessfulAttempt s, { ui with authenticated := true }, []⟩
    else
      let newAttempt := la.loginAttempts + 1
      let inc := cfg.thresholdRules.increment
      let aLeft := attemptsLeftOf inc newAttempt
      let penaltyNow := getLockoutPenalty cfg newAttempt
      let ui :=
        if inlineEnabled = false ∧ penaltyNow.getD 0 = 0 then
          { ui with alertModalVisible := true }
        else ui
      if 1 < aLeft then
        let ui :=
          if inlineEnabled then
            { ui with inlineMessageField := some (PINMessage.incorrectPINTries aLeft) }
          else
            { ui with alertModalMessage := some (PINMessage.incorrectPINTries aLeft) }
        let ui := { ui with continueEnabled := true }
        ⟨{ s with loginAttempt := applyAttemptUpdate s.loginAttempt ⟨some newAttempt, none, none⟩ },
          ui, []⟩
      else if aLeft = 1 then
        let ui :=
          if inlineEnabled then
            { ui with inlineMessageField := some PINMessage.lastTryBeforeTimeout }
          else
            { ui with alertModalMessage := some PINMessage.lastTryBeforeTimeout }
        let ui := { ui with continueEnabled := true }
        ⟨{ s with loginAttempt := applyAttemptUpdate s.loginAttempt ⟨some newAttempt, none, none⟩ },
          ui, []⟩
      else
        match penaltyNow with
        | some p => ⟨attemptLockout now p la.loginAttempts s, ui, []⟩
        | none => ⟨s, ui, []⟩

/-- The wallet secret returned by getWalletSecret. -/
structure WalletSecret where
  key : String
  salt : String
  deriving Repr, DecidableEq

/-- verifyPIN (lines 402-430), used for the PIN re-check usages. The
awaited getWalletSecret call is an Except (it may throw); an absent
secret makes the source itself throw, and hashPIN may throw, all caught
by the surrounding catch which emits error code 1042. The source
dispatches nothing on any path, so the store passes through unchanged. -/
def verifyPIN (hashPIN : String → String → Except String String)
    (secretResult : Except String (Option WalletSecret)) (pin : String)
    (s : StoreState) (ui : UIState) : StoreState × UIState × List Nat :=
  match secretResult with
  | Except.error _ => (s, ui, [1042])
  | Except.ok none => (s, ui, [1042])
  | Except.ok (some ws) =>
    match hashPIN pin ws.salt with
    | Except.error _ => (s, ui, [1042])
    | Except.ok key =>
      if ws.key ≠ key then
        (s, { ui with alertModalVisible := true }, [])
      else
        (s, { ui with authenticated := true }, [])

/-- The three usages of the PIN entry screen. -/
inductive PINEntryUsage where
  | PINCheck
  | WalletUnlock
  | ChangeBiometrics
  deriving Repr, DecidableEq

/-- loadWalletCredentials (lines 220-242): returns immediately for the
PINCheck and ChangeBiometrics usages; otherwise, when getWalletSecret
yields a secret, dispatches LOCKOUT_UPDATED with displayNotification
false, then ATTEMPT_UPDATED with loginAttempts 0, and reports
authenticated. -/
def loadWalletCredentials (usage : PINEntryUsage) (secret : Option WalletSecret)
    (s : StoreState) (ui : UIState) : StoreState × UIState :=
  match usage with
  | PINEntryUsage.PINCheck => (s, ui)
  | PINEntryUsage.ChangeBiometrics => (s, ui)
  | PINEntryUsage.WalletUnlock =>
    match secret with
    | none => (s, ui)
    | some _ =>
      let s1 : StoreState := { s with lockoutDisplayNotification := false }
      let s2 : StoreState :=
        { s1 with loginAttempt := (applyAttemptUpdate s1.loginAttempt ⟨some 0, none, none⟩) }
      (s2, { ui with authenticated := true })

/-- The two top-level experiences RootStack can render. -/
inductive Stack where
  | MainStack
  | OnboardingOrAuthStack
  deriving Repr, DecidableEq

/-- shouldRenderMainStack (RootStack, lines 655-658): the conjunction of
the local onboardingComplete flag and store.authentication.didAuthenticate. -/
def shouldRenderMainStack (onboardingComplete didAuthenticate : Bool) : Bool :=
  onboardingComplete && didAuthenticate

/-- decideStack: the render decision of RootStack (lines 686-690): the
main stack exactly when shouldRenderMainStack holds, else the
onboarding / authentication stack. -/
def decideStack (onboardingComplete didAuthenticate : Bool) : Stack :=
  if shouldRenderMainStack onboardingComplete didAuthenticate then
    Stack.MainStack
  else
    Stack.OnboardingOrAuthStack

/-- The session-scoped inputs of the authentication gate. -/
structure GateState where
  onboardingComplete : Bool
  didAuthenticate : Bool
  deriving Repr, DecidableEq

/-- The events that can touch the gate inputs during a session: the
DID_COMPLETE_ONBOARDING emitter event, whose listener (lines 660-666)
calls setOnboardingComplete(true) and is the only writer of that flag,
and external store updates of didAuthenticate. -/
inductive GateEvent where
  | didCompleteOnboarding
  | setDidAuthenticate (b : Bool)
  deriving Repr, DecidableEq

/-- One gate transition per arriving event. -/
def gateStep (s : GateState) (e : GateEvent) : GateState :=
  match e with
  | GateEvent.didCompleteOnboarding => { s with onboardingComplete := true }
  | GateEvent.setDidAuthenticate b => { s with didAuthenticate := b }

/-- The gate state at a cold start: useState(false) for
onboardingComplete, didAuthenticate as loaded from the store. -/
def gateInit (didAuthenticate : Bool) : GateState :=
  ⟨false, didAuthenticate⟩

/-- The gate state after a sequence of session events. -/
def gateRun (s : GateState) (es : List GateEvent) : GateState :=
  List.foldl gateStep s es

/-- In an association list whose stored durations are all positive, a
successful lookup returns a positive duration. -/
theorem lookup_pos {l : List (Nat × Nat)} {a d : Nat}
    (hpos : ∀ pr ∈ l, 0 < pr.2) (h : l.lookup a = some d) : 0 < d := by
  induction l with
  | nil => simp [List.lookup] at h
  | cons p t ih =>
    obtain ⟨k, v⟩ := p
    cases hk : (a == k) with
    | true =>
      rw [List.lookup, hk] at h
      cases h
      exact hpos (k, d) (List.mem_cons_self _ _)
    | false =>
      rw [List.lookup, hk] at h
      exact ih (fun pr hpr => hpos pr (List.mem_cons_of_mem _ hpr)) h

/-- C1: the claim fails on the code. At the configuration of the spec
scenario (baseRules 3 maps to 30000, threshold 5, increment 2) and
loginAttempts 2, getLockoutPenalty 3 is present, yet the failed attempt
does not transition to lockout: attemptsLeft is 1, so the source takes
the last-try warning branch, stores loginAttempts = 3, and leaves
lockoutDate and servedPenalty untouched. The lockout branch is reachable
only when attemptsLeft = 0. -/
theorem unlock_base_rule_penalty_not_imposed :
    getLockoutPenalty ⟨[(3, 30000)], ⟨5, 2, 60000⟩⟩ 3 = some 30000 ∧
    attemptsLeftOf 2 3 = 1 ∧
    unlockWalletWithPIN ⟨[(3, 30000)], ⟨5, 2, 60000⟩⟩ false 1000 (Except.ok false)
      ⟨⟨2, none, none⟩, false⟩ ⟨true, false, none, none, false⟩ =
    ⟨⟨⟨3, none, none⟩, false⟩,
      ⟨true, false, some PINMessage.lastTryBeforeTimeout, none, false⟩, []⟩ := by
  decide

/-- C2: the claim fails on the code. At the same configuration with
loginAttempts 1, the failed attempt lands in the degenerate branch
(attemptsLeft = 0 and no penalty for newAttempt = 2): the source returns
early without any dispatch, so the stored loginAttempts stays 1 instead
of 2, and the continue button is left disabled. -/
theorem unlock_degenerate_branch_not_persisted :
    attemptsLeftOf 2 2 = 0 ∧
    getLockoutPenalty ⟨[(3, 30000)], ⟨5, 2, 60000⟩⟩ 2 = none ∧
    unlockWalletWithPIN ⟨[(3, 30000)], ⟨5, 2, 60000⟩⟩ false 1000 (Except.ok false)
      ⟨⟨1, none, none⟩, false⟩ ⟨true, false, none, none, false⟩ =
    ⟨⟨⟨1, none, none⟩, false⟩, ⟨false, true, none, none, false⟩, []⟩ := by
  decide

/-- C3 counterexample: with a base rule mapping 6 to a duration of 0
(threshold 5, increment 2), the source's JS truthiness test treats the
present entry as absent, so getLockoutPenalty 6 returns the threshold
penalty 60000 while the reference definition returns the entry 0: the
two functions are not equal on every configuration. -/
theorem getLockoutPenalty_zero_entry_not_precedent :
    getLockoutPenalty ⟨[(6, 0)], ⟨5, 2, 60000⟩⟩ 6 = some 60000 ∧
    computeLockoutPenaltySpec ⟨[(6, 0)], ⟨5, 2, 60000⟩⟩ 6 = some 0 ∧
    getLockoutPenalty ⟨[(6, 0)], ⟨5, 2, 60000⟩⟩ 6 ≠
      computeLockoutPenaltySpec ⟨[(6, 0)], ⟨5, 2, 60000⟩⟩ 6 := by
  decide

/-- C3 amended: on every configuration with a positive increment (the
spec rejects increment 0 as malformed) whose base rule durations are all
positive, getLockoutPenalty agrees everywhere with the reference
definition computeLockoutPenaltySpec: a present base rule is returned,
else the threshold penalty exactly when the count has reached the
threshold and is a multiple of the increment, else absent. -/
theorem getLockoutPenalty_eq_spec (cfg : LockoutConfig)
    (hinc : 0 < cfg.thresholdRules.increment)
    (hpos : ∀ pr ∈ cfg.baseRules, 0 < pr.2) (attempts : Nat) :
    getLockoutPenalty cfg attempts = computeLockoutPenaltySpec cfg attempts := by
  unfold getLockoutPenalty computeLockoutPenaltySpec
  cases hl : cfg.baseRules.lookup attempts with
  | none =>
    have hne : cfg.thresholdRules.increment ≠ 0 := Nat.pos_iff_ne_zero.mp hinc
    simp [hl, hne]
  | some d =>
    have hd : 0 < d := lookup_pos hpos hl
    simp [hl, Nat.pos_iff_ne_zero.mp hd]

/-- Witness for the amended C3 theorem at the scenario configuration. -/
theorem getLockoutPenalty_eq_spec_witness :
    (0 < (2 : Nat) ∧ (∀ pr ∈ [((3 : Nat), (30000 : Nat))], 0 < pr.2)) ∧
    getLockoutPenalty ⟨[(3, 30000)], ⟨5, 2, 60000⟩⟩ 6 =
      computeLockoutPenaltySpec ⟨[(3, 30000)], ⟨5, 2, 60000⟩⟩ 6 :=
  ⟨⟨by decide, by decide⟩,
    getLockoutPenalty_eq_spec ⟨[(3, 30000)], ⟨5, 2, 60000⟩⟩ (by decide) (by decide) 6⟩

/-- C4 counterexample: with no base rules, threshold 5 and increment 3,
a failed attempt from loginAttempts 2 has attemptsLeft 0 and no penalty,
and the source records nothing: the stored loginAttempts stays 2 instead
of being recorded as 3, refuting that the attempt is recorded silently. -/
theorem unlock_silent_branch_not_recorded :
    attemptsLeftOf 3 3 = 0 ∧
    getLockoutPenalty ⟨[], ⟨5, 3, 60000⟩⟩ 3 = none ∧
    unlockWalletWithPIN ⟨[], ⟨5, 3, 60000⟩⟩ true 0 (Except.ok false)
      ⟨⟨2, none, none⟩, false⟩ ⟨true, false, none, none, false⟩ =
    ⟨⟨⟨2, none, none⟩, false⟩, ⟨false, false, none, none, false⟩, []⟩ := by
  decide

/-- C4 amended: on a failed attempt, with attemptsLeft computed as
(increment - (newAttempt mod increment)) mod increment: if
attemptsLeft > 1 the tries-remaining message with N = attemptsLeft is set
(inline when inline messages are enabled, else as the modal message) and
entry continues with the incremented counter dispatched; if
attemptsLeft = 1 the last-try message is set likewise and entry
continues; if attemptsLeft = 0 and no penalty applies, no warning message
is set, nothing is dispatched (the counter is NOT recorded), and the
continue button is left disabled. -/
theorem unlock_failed_attempt_message_cases (cfg : LockoutConfig) (inlineEnabled : Bool)
    (now : Nat) (s : StoreState) (ui : UIState) :
    (1 < attemptsLeftOf cfg.thresholdRules.increment (s.loginAttempt.loginAttempts + 1) →
      ((if inlineEnabled then
          (unlockWalletWithPIN cfg inlineEnabled now (Except.ok false) s ui).ui.inlineMessageField
        else
          (unlockWalletWithPIN cfg inlineEnabled now (Except.ok false) s ui).ui.alertModalMessage) =
          some (PINMessage.incorrectPINTries
            (attemptsLeftOf cfg.thresholdRules.increment (s.loginAttempt.loginAttempts + 1))) ∧
        (unlockWalletWithPIN cfg inlineEnabled now (Except.ok false) s
            ui).store.loginAttempt.loginAttempts = s.loginAttempt.loginAttempts + 1 ∧
        (unlockWalletWithPIN cfg inlineEnabled now (Except.ok false) s ui).ui.continueEnabled =
          true)) ∧
    (attemptsLeftOf cfg.thresholdRules.increment (s.loginAttempt.loginAttempts + 1) = 1 →
      ((if inlineEnabled then
          (unlockWalletWithPIN cfg inlineEnabled now (Except.ok false) s ui).ui.inlineMessageField
        else
          (unlockWalletWithPIN cfg inlineEnabled now (Except.ok false) s ui).ui.alertModalMessage) =
          some PINMessage.lastTryBeforeTimeout ∧
        (unlockWalletWithPIN cfg inlineEnabled now (Except.ok false) s
            ui).store.loginAttempt.loginAttempts = s.loginAttempt.loginAttempts + 1 ∧
        (unlockWalletWithPIN cfg inlineEnabled now (Except.ok false) s ui).ui.continueEnabled =
          true)) ∧
    (attemptsLeftOf cfg.thresholdRules.increment (s.loginAttempt.loginAttempts + 1) = 0 →
      getLockoutPenalty cfg (s.loginAttempt.loginAttempts + 1) = none →
      ((unlockWalletWithPIN cfg inlineEnabled now (Except.ok false) s ui).ui.inlineMessageField =
          ui.inlineMessageField ∧
        (unlockWalletWithPIN cfg inlineEnabled now (Except.ok false) s ui).ui.alertModalMessage =
          ui.alertModalMessage ∧
        (unlockWalletWithPIN cfg inlineEnabled now (Except.ok false) s
            ui).store.loginAttempt.loginAttempts = s.loginAttempt.loginAttempts ∧
        (unlockWalletWithPIN cfg inlineEnabled now (Except.ok false) s ui).ui.continueEnabled =
          false)) := by
  refine ⟨?_, ?_, ?_⟩
  · intro h1
    cases inlineEnabled <;>
      by_cases hsp : s.loginAttempt.servedPenalty.getD false <;>
      by_cases hg : (getLockoutPenalty cfg (s.loginAttempt.loginAttempts + 1)).getD 0 = 0 <;>
      simp [unlockWalletWithPIN, hsp, hg, h1, unMarkServedPenalty, applyAttemptUpdate]
  · intro h1
    have hn : ¬ (1 < attemptsLeftOf cfg.thresholdRules.increment (s.loginAttempt.loginAttempts + 1)) := by
      omega
    cases inlineEnabled <;>
      by_cases hsp : s.loginAttempt.servedPenalty.getD false <;>
      by_cases hg : (getLockoutPenalty cfg (s.loginAttempt.loginAttempts + 1)).getD 0 = 0 <;>
      simp [unlockWalletWithPIN, hsp, hg, h1, hn, unMarkServedPenalty, applyAttemptUpdate]
  · intro h1 h2
    have hn : ¬ (1 < attemptsLeftOf cfg.thresholdRules.increment (s.loginAttempt.loginAttempts + 1)) := by
      omega
    have hn1 : attemptsLeftOf cfg.thresholdRules.increment (s.loginAttempt.loginAttempts + 1) ≠ 1 := by
      omega
    cases inlineEnabled <;>
      by_cases hsp : s.loginAttempt.servedPenalty.getD false <;>
      simp [unlockWalletWithPIN, hsp, h1, h2, hn, hn1, unMarkServedPenalty, applyAttemptUpdate]

/-- Witness for the amended C4 theorem: one concrete input per branch
(attemptsLeft 3, 1 and 0 with no penalty, under increment 4 and inline
messages enabled). -/
theorem unlock_failed_attempt_message_cases_witness :
    (1 < attemptsLeftOf 4 1 ∧
      (unlockWalletWithPIN ⟨[], ⟨5, 4, 60000⟩⟩ true 0 (Except.ok false)
        ⟨⟨0, none, none⟩, false⟩ ⟨true, false, none, none, false⟩).ui.inlineMessageField =
        some (PINMessage.incorrectPINTries 3)) ∧
    (attemptsLeftOf 4 3 = 1 ∧
      (unlockWalletWithPIN ⟨[], ⟨5, 4, 60000⟩⟩ true 0 (Except.ok false)
        ⟨⟨2, none, none⟩, false⟩ ⟨true, false, none, none, false⟩).ui.inlineMessageField =
        some PINMessage.lastTryBeforeTimeout) ∧
    (attemptsLeftOf 4 4 = 0 ∧ getLockoutPenalty ⟨[], ⟨5, 4, 60000⟩⟩ 4 = none ∧
      (unlockWalletWithPIN ⟨[], ⟨5, 4, 60000⟩⟩ true 0 (Except.ok false)
        ⟨⟨3, none, none⟩, false⟩
        ⟨true, false, none, none, false⟩).store.loginAttempt.loginAttempts = 3) :=
  ⟨⟨by decide,
      ((unlock_failed_attempt_message_cases ⟨[], ⟨5, 4, 60000⟩⟩ true 0
          ⟨⟨0, none, none⟩, false⟩ ⟨true, false, none, none, false⟩).1 (by decide)).1⟩,
    ⟨by decide,
      ((unlock_failed_attempt_message_cases ⟨[], ⟨5, 4, 60000⟩⟩ true 0
          ⟨⟨2, none, none⟩, false⟩ ⟨true, false, none, none, false⟩).2.1 (by decide)).1⟩,
    by decide, by decide,
    ((unlock_failed_attempt_message_cases ⟨[], ⟨5, 4, 60000⟩⟩ true 0
        ⟨⟨3, none, none⟩, false⟩ ⟨true, false, none, none, false⟩).2.2 (by decide)
      (by decide)).2.2.1⟩

/-- C5: for every store state, the success branch of unlockWalletWithPIN
(the spec operation recordSuccessfulAttempt) stores loginAttempts 0 and
clears the lockout display notification, while leaving lockoutDate and
servedPenalty of the login attempt state unchanged. -/
theorem recordSuccessfulAttempt_resets (s : StoreState) :
    (recordSuccessfulAttempt s).loginAttempt.loginAttempts = 0 ∧
    (recordSuccessfulAttempt s).lockoutDisplayNotification = false ∧
    (recordSuccessfulAttempt s).loginAttempt.lockoutDate = s.loginAttempt.lockoutDate ∧
    (recordSuccessfulAttempt s).loginAttempt.servedPenalty = s.loginAttempt.servedPenalty := by
  simp [recordSuccessfulAttempt, applyAttemptUpdate]

/-- C6: decideStack is the pure conjunction of its two inputs: the main
stack is rendered exactly when onboardingComplete and didAuthenticate
both hold; in particular the pre-main experience is rendered at
(false, true), and the main stack once onboardingComplete flips true. -/
theorem decideStack_conjunction (o d : Bool) :
    (decideStack o d = Stack.MainStack ↔ (o = true ∧ d = true)) ∧
    decideStack false true = Stack.OnboardingOrAuthStack ∧
    decideStack true true = Stack.MainStack := by
  refine ⟨?_, by decide, by decide⟩
  cases o <;> cases d <;> decide

/-- C7: within one app session the gate's onboardingComplete flag starts
false, the only transition setting it is the external
onboarding-completion event, and once true it remains true along every
event sequence. -/
theorem onboardingComplete_monotone :
    (∀ d : Bool, (gateInit d).onboardingComplete = false) ∧
    (∀ (s : GateState) (e : GateEvent),
      ((gateStep s e).onboardingComplete = true ↔
        (s.onboardingComplete = true ∨ e = GateEvent.didCompleteOnboarding))) ∧
    (∀ (s : GateState) (es : List GateEvent),
      s.onboardingComplete = true → (gateRun s es).onboardingComplete = true) := by
  refine ⟨fun d => rfl, ?_, ?_⟩
  · intro s e
    cases e with
    | didCompleteOnboarding => simp [gateStep]
    | setDidAuthenticate b => simp [gateStep]
  · intro s es
    induction es generalizing s with
    | nil => intro h; exact h
    | cons e t ih =>
      intro h
      have h2 : (gateStep s e).onboardingComplete = true := by
        cases e with
        | didCompleteOnboarding => rfl
        | setDidAuthenticate b => exact h
      exact ih (gateStep s e) h2

/-- Witness for C7 at a concrete state and event sequence. -/
theorem onboardingComplete_monotone_witness :
    (⟨true, false⟩ : GateState).onboardingComplete = true ∧
    (gateRun ⟨true, false⟩
      [GateEvent.setDidAuthenticate true,
        GateEvent.setDidAuthenticate false]).onboardingComplete = true :=
  ⟨rfl,
    onboardingComplete_monotone.2.2 ⟨true, false⟩
      [GateEvent.setDidAuthenticate true, GateEvent.setDidAuthenticate false] rfl⟩

/-- C8: a throwing verification step is caught, emits exactly one
numbered error event (1041 for wallet unlock, 1042 for the PIN
re-check), and leaves the store untouched: no attempt-counter or lockout
dispatch happens on the error path. The verifyPIN throw paths are a
failing getWalletSecret, an absent wallet secret (the source throws and
catches locally), and a failing hashPIN. -/
theorem verification_throw_caught (cfg : LockoutConfig) (inlineEnabled : Bool) (now : Nat)
    (msg : String) (s : StoreState) (ui : UIState)
    (hashPIN : String → String → Except String String) (pin : String)
    (ws : WalletSecret) (hmsg : String) :
    ((unlockWalletWithPIN cfg inlineEnabled now (Except.error msg) s ui).store = s ∧
      (unlockWalletWithPIN cfg inlineEnabled now (Except.error msg) s ui).errorEvents = [1041]) ∧
    ((verifyPIN hashPIN (Except.error msg) pin s ui).1 = s ∧
      (verifyPIN hashPIN (Except.error msg) pin s ui).2.2 = [1042]) ∧
    ((verifyPIN hashPIN (Except.ok none) pin s ui).1 = s ∧
      (verifyPIN hashPIN (Except.ok none) pin s ui).2.2 = [1042]) ∧
    (hashPIN pin ws.salt = Except.error hmsg →
      (verifyPIN hashPIN (Except.ok (some ws)) pin s ui).1 = s ∧
      (verifyPIN hashPIN (Except.ok (some ws)) pin s ui).2.2 = [1042]) := by
  refine ⟨⟨rfl, rfl⟩, ⟨rfl, rfl⟩, ⟨rfl, rfl⟩, ?_⟩
  intro h
  simp [verifyPIN, h]

/-- Witness for C8 at a concrete hashing failure. -/
theorem verification_throw_caught_witness :
    ((fun _ _ => (Except.error "hashfail" : Except String String)) "123456"
        (WalletSecret.mk "key" "salt").salt = Except.error "hashfail") ∧
    (verifyPIN (fun _ _ => Except.error "hashfail") (Except.ok (some ⟨"key", "salt"⟩)) "123456"
        ⟨⟨0, none, none⟩, false⟩ ⟨true, false, none, none, false⟩).1 = ⟨⟨0, none, none⟩, false⟩ ∧
    (verifyPIN (fun _ _ => Except.error "hashfail") (Except.ok (some ⟨"key", "salt"⟩)) "123456"
        ⟨⟨0, none, none⟩, false⟩ ⟨true, false, none, none, false⟩).2.2 = [1042] :=
  ⟨rfl,
    (verification_throw_caught ⟨[], ⟨5, 2, 60000⟩⟩ false 0 "boom" ⟨⟨0, none, none⟩, false⟩
        ⟨true, false, none, none, false⟩ (fun _ _ => Except.error "hashfail") "123456"
        ⟨"key", "salt"⟩ "hashfail").2.2.2 rfl⟩

/-- C9: with increment 1 the attemptsLeft computation is total and
evaluates to 0 for every non-negative newAttempt. -/
theorem attemptsLeft_increment_one (n : Nat) : attemptsLeftOf 1 n = 0 := by
  simp [attemptsLeftOf, Nat.mod_one]

/-- C10: in WalletUnlock usage, whenever getWalletSecret yields a
secret, loadWalletCredentials clears the lockout display notification and
resets loginAttempts to 0 before reporting authenticated; in PINCheck or
ChangeBiometrics usage it changes nothing. -/
theorem loadWalletCredentials_usage_cases (usage : PINEntryUsage)
    (secret : Option WalletSecret) (s : StoreState) (ui : UIState) :
    (usage = PINEntryUsage.WalletUnlock →
      ∀ ws, secret = some ws →
        ((loadWalletCredentials usage secret s ui).1.lockoutDisplayNotification = false ∧
          (loadWalletCredentials usage secret s ui).1.loginAttempt.loginAttempts = 0 ∧
          (loadWalletCredentials usage secret s ui).2.authenticated = true)) ∧
    ((usage = PINEntryUsage.PINCheck ∨ usage = PINEntryUsage.ChangeBiometrics) →
      loadWalletCredentials usage secret s ui = (s, ui)) := by
  constructor
  · rintro rfl ws rfl
    simp [loadWalletCredentials, applyAttemptUpdate]
  · rintro (rfl | rfl) <;> rfl

/-- Witness for C10 at a concrete secret and at the PINCheck usage. -/
theorem loadWalletCredentials_usage_cases_witness :
    ((loadWalletCredentials PINEntryUsage.WalletUnlock (some ⟨"key", "salt"⟩)
        ⟨⟨4, some 9, some true⟩, true⟩
        ⟨true, false, none, none, false⟩).1.lockoutDisplayNotification = false ∧
      (loadWalletCredentials PINEntryUsage.WalletUnlock (some ⟨"key", "salt"⟩)
        ⟨⟨4, some 9, some true⟩, true⟩
        ⟨true, false, none, none, false⟩).1.loginAttempt.loginAttempts = 0 ∧
      (loadWalletCredentials PINEntryUsage.WalletUnlock (some ⟨"key", "salt"⟩)
        ⟨⟨4, some 9, some true⟩, true⟩
        ⟨true, false, none, none, false⟩).2.authenticated = true) ∧
    loadWalletCredentials PINEntryUsage.PINCheck none ⟨⟨4, some 9, some true⟩, true⟩
        ⟨true, false, none, none, false⟩ =
      (⟨⟨4, some 9, some true⟩, true⟩, ⟨true, false, none, none, false⟩) :=
  ⟨(loadWalletCredentials_usage_cases PINEntryUsage.WalletUnlock (some ⟨"key", "salt"⟩)
      ⟨⟨4, some 9, some true⟩, true⟩ ⟨true, false, none, none, false⟩).1 rfl ⟨"key", "salt"⟩ rfl,
    (loadWalletCredentials_usage_cases PINEntryUsage.PINCheck none
      ⟨⟨4, some 9, some true⟩, true⟩ ⟨true, false, none, none, false⟩).2 (Or.inl rfl)⟩

